import Mathlib

/-!
Verification of the `ConnectionManager` module (`src/keycloak/connection.py`)
of the python-keycloak repository.

The module is a configuration holder plus eight request-dispatch methods
(four synchronous via a `requests` session, four asynchronous via an
`httpx` client).  We shallowly embed the manager state, the header
operations, and the request dispatch.  Python dicts are embedded as
association lists preserving insertion order; the underlying HTTP
transport is abstracted as a function from the request the manager builds
to either a response or a raised exception, mirroring the
`try: return session.verb(...) except Exception as e: raise
KeycloakConnectionError(repr(e))` pattern shared by all eight methods.
-/

namespace Keycloak

/-- A Python dict from `str` to `str | None`, as an insertion-ordered
association list.  Header mappings and query-parameter mappings both have
this shape in the module. -/
abbrev PyDict := List (String × Option String)

/-- A request body (the `data` argument of POST/PUT/DELETE), a dict from
`str` to `str`. -/
abbrev Body := List (String × String)

/-- Python `d.get(key)`: the value bound to the first occurrence of the
key, or `none` when the key is absent. -/
def dictGet (d : PyDict) (k : String) : Option (Option String) :=
  match d with
  | [] => none
  | (k', v) :: t => if k' = k then some v else dictGet t k

/-- Python `d[key] = value`: replace the value at the existing binding of
the key, keeping its position, or append a fresh binding at the end. -/
def dictSet (d : PyDict) (k : String) (v : Option String) : PyDict :=
  match d with
  | [] => [(k, v)]
  | (k', v') :: t => if k' = k then (k, v) :: t else (k', v') :: dictSet t k v

/-- Python `d.pop(key, None)`: remove the binding of the key when present;
no error when absent.  The keys of a Python dict are distinct, so removing
the key's binding is removing every entry with that key in the
association-list embedding. -/
def dictPop (d : PyDict) (k : String) : PyDict :=
  match d with
  | [] => []
  | (k', v') :: t => if k' = k then dictPop t k else (k', v') :: dictPop t k

/-- The `verify` configuration: a boolean flag or a path to a CA bundle
(Python `Union[bool, str]`). -/
inductive Verify where
  | flag (b : Bool)
  | bundle (path : String)
deriving DecidableEq

/-- A client certificate: a single path or a (certificate file, key file)
pair (Python `Union[str, Tuple[str, str]]`). -/
inductive Cert where
  | file (path : String)
  | pair (certFile keyFile : String)
deriving DecidableEq

/-- A proxy map, Python dict from scheme to proxy URL. -/
abbrev Proxies := List (String × String)

/-- Modelled from the spec: the default allowed-retry method set of the
retry configuration created by the `requests` library's `HTTPAdapter`
(urllib3's `Retry.DEFAULT_ALLOWED_METHODS`); the library itself is not
under src/.  The spec calls it "the library default set", the idempotent
HTTP methods. -/
def DEFAULT_ALLOWED_METHODS : List String :=
  ["DELETE", "GET", "HEAD", "OPTIONS", "PUT", "TRACE"]

/-- Python `set.add` followed by `frozenset`: the set extended with one
element, embedded as a list modulo membership. -/
def setAdd (x : String) (s : List String) : List String :=
  if x ∈ s then s else s ++ [x]

/-- The retry configuration held by an adapter (`adapter.max_retries`,
urllib3's `Retry`): a total count and the allowed-retry method set. -/
structure Retry where
  total : Nat
  allowed_methods : List String
deriving DecidableEq

/-- The `requests` `HTTPAdapter` as configured by the constructor: only
its retry configuration is relevant to the module. -/
structure HTTPAdapter where
  max_retries : Retry
deriving DecidableEq

/-- The adapter built in the constructor loop: `HTTPAdapter(max_retries=
max_retries)` whose `allowed_methods` is the library default set with
`POST` added. -/
def buildAdapter (max_retries : Nat) : HTTPAdapter :=
  { max_retries :=
      { total := max_retries
        allowed_methods := setAdd "POST" DEFAULT_ALLOWED_METHODS } }

/-- Modelled from the spec: the `httpx.AsyncHTTPTransport` (library code,
not under src/), holding the retry count given to its constructor. -/
structure AsyncHTTPTransport where
  retries : Nat
deriving DecidableEq

/-- Modelled from the spec: the `httpx.AsyncClient` (library code, not
under src/), binding at construction the TLS-verification mode, the proxy
mounts and the client certificate passed to it, plus the `auth` and
`transport` attributes the constructor assigns afterwards. -/
structure AsyncClient where
  verify : Verify
  mounts : Option Proxies
  cert : Option Cert
  auth : Option String
  transport : AsyncHTTPTransport
deriving DecidableEq

/-- The `ConnectionManager` state: the configuration attributes, the
mounted adapters and proxies of the synchronous session, and the
asynchronous client. -/
structure ConnectionManager where
  base_url : String
  headers : PyDict
  timeout : Nat
  verify : Verify
  cert : Option Cert
  sync_mounts : List (String × HTTPAdapter)
  sync_proxies : Proxies
  async_s : AsyncClient

namespace ConnectionManager

/-- The `headers` property setter: `self._headers = value or {}`.  A
missing mapping (Python `None`) becomes the empty mapping; Python's
falsy empty dict also maps to the empty mapping, which coincides with the
identity there. -/
def headersDefault (value : Option PyDict) : PyDict :=
  match value with
  | none => []
  | some h => h

/-- Full replacement of the headers through the `headers` setter. -/
def setHeaders (m : ConnectionManager) (value : Option PyDict) : ConnectionManager :=
  { m with headers := headersDefault value }

/-- The constructor: stores the configuration (headers through the
setter), mounts a fresh retry adapter for the https and http schemes in
that order, updates the session proxies when a proxy map is given, and
builds the asynchronous client with verify, mounts and cert bound, auth
cleared, and a transport with a retry count of 1. -/
def init (base_url : String) (headers : Option PyDict) (timeout : Nat)
    (verify : Verify) (proxies : Option Proxies) (cert : Option Cert)
    (max_retries : Nat) : ConnectionManager :=
  { base_url := base_url
    headers := headersDefault headers
    timeout := timeout
    verify := verify
    cert := cert
    sync_mounts := [("https://", buildAdapter max_retries),
                    ("http://", buildAdapter max_retries)]
    sync_proxies :=
      match proxies with
      | some p => if p = [] then [] else p
      | none => []
    async_s :=
      { verify := verify
        mounts := proxies
        cert := cert
        auth := none
        transport := { retries := 1 } } }

/-- Method `param_headers`: `self.headers.get(key)`.  A stored `None`
value and an absent key both come back as Python `None`. -/
def param_headers (m : ConnectionManager) (key : String) : Option String :=
  match dictGet m.headers key with
  | some v => v
  | none => none

/-- Method `clean_headers`: `self.headers = {}` (through the setter). -/
def clean_headers (m : ConnectionManager) : ConnectionManager :=
  setHeaders m (some [])

/-- Method `exist_param_headers`: `self.param_headers(key) is not None`. -/
def exist_param_headers (m : ConnectionManager) (key : String) : Bool :=
  (param_headers m key).isSome

/-- Method `add_param_headers`: `self.headers[key] = value`. -/
def add_param_headers (m : ConnectionManager) (key : String) (value : Option String) :
    ConnectionManager :=
  { m with headers := dictSet m.headers key value }

/-- Method `del_param_headers`: `self.headers.pop(key, None)`. -/
def del_param_headers (m : ConnectionManager) (key : String) : ConnectionManager :=
  { m with headers := dictPop m.headers key }

end ConnectionManager

/-- Helper: split a character list at the first slash, returning the part
before it and the part from the slash on. -/
def splitAtSlash (cs : List Char) : List Char × List Char :=
  match cs with
  | [] => ([], [])
  | c :: t =>
      if c = '/' then ([], c :: t)
      else
        let p := splitAtSlash t
        (c :: p.1, p.2)

/-- Helper: split a character list at the first occurrence of the three
characters of a scheme separator, returning the scheme part and the rest,
or `none` when the separator does not occur. -/
def splitSchemeSep (cs : List Char) : Option (List Char × List Char) :=
  match cs with
  | [] => none
  | ':' :: '/' :: '/' :: t => some ([], t)
  | c :: t =>
      match splitSchemeSep t with
      | some p => some (c :: p.1, p.2)
      | none => none

/-- Split an absolute URL into its root (scheme and authority) and its
path part.  A string with no scheme separator is treated as all path. -/
def splitUrl (base : String) : String × String :=
  match splitSchemeSep base.data with
  | none => ("", base)
  | some (scheme, rest) =>
      let p := splitAtSlash rest
      (String.mk (scheme ++ (':' :: '/' :: '/' :: p.1)), String.mk p.2)

/-- Helper: the longest initial segment of a character list ending at its
last slash, or `none` when it holds no slash. -/
def dirChars (cs : List Char) : Option (List Char) :=
  match cs with
  | [] => none
  | c :: t =>
      match dirChars t with
      | some r => some (c :: r)
      | none => if c = '/' then some ['/'] else none

/-- The directory portion of a URL path: everything up to and including
the last slash, or a single slash for a path with no slash (resolving a
relative reference against a base with an empty or rootless path lands at
the root). -/
def dirOf (p : String) : String :=
  match dirChars p.data with
  | some r => String.mk r
  | none => "/"

/-- Decide whether a string starts with a slash, by its first character. -/
def startsWithSlash (s : String) : Bool :=
  match s.data with
  | '/' :: _ => true
  | _ => false

/-- Modelled from the spec: Python's `urllib.parse.urljoin` (standard
library, not under src/).  The spec describes standard URL-join
semantics: an empty reference leaves the base URL; an absolute path
(leading slash) replaces the base URL's path; a relative path is appended
to the directory portion of the base URL's path.  Dot-segment
normalisation and query or scheme-carrying references are outside the
uses this module makes. -/
def urljoin (base url : String) : String :=
  if url = "" then base
  else
    let p := splitUrl base
    if startsWithSlash url then p.1 ++ url
    else p.1 ++ dirOf p.2 ++ url

/-- An exception raised by the underlying transport; all the module uses
of it is its `repr` string. -/
structure PyExc where
  reprStr : String
deriving DecidableEq

/-- Modelled from the spec: `KeycloakConnectionError` (defined in
`keycloak/exceptions.py`, not under src/), the single connection-error
domain type, carrying the original failure's string representation as its
message. -/
structure KeycloakConnectionError where
  message : String
deriving DecidableEq

/-- A raw HTTP response as produced by the underlying transport: status
code, headers and body, passed through uninterpreted. -/
structure Response where
  status_code : Nat
  resp_headers : List (String × String)
  body : String
deriving DecidableEq

/-- The request a dispatch method hands to the underlying session or
client: the HTTP verb, the joined URL, the query parameters, the optional
body, the shared headers and timeout, and (on the synchronous path only)
the per-request verify and cert. -/
structure SentRequest where
  method : String
  url : String
  params : PyDict
  data : Option Body
  req_headers : PyDict
  timeout : Nat
  req_verify : Option Verify
  req_cert : Option (Option Cert)

/-- The underlying transport: for the request a method builds, either a
response comes back or an exception is raised. -/
inductive TransportResult where
  | resp (r : Response)
  | exc (e : PyExc)

/-- A transport assigns an outcome to every request. -/
abbrev Transport := SentRequest → TransportResult

/-- The shared dispatch pattern of all eight methods: return the
transport's response, or catch any exception `e` and raise
`KeycloakConnectionError(repr(e))`. -/
def sendRequest (t : Transport) (req : SentRequest) :
    Except KeycloakConnectionError Response :=
  match t req with
  | TransportResult.resp r => Except.ok r
  | TransportResult.exc e => Except.error { message := e.reprStr }

/-- Static method `_filter_query_params`: the dict comprehension
keeping exactly the entries whose value is not `None`, in order. -/
def filter_query_params (query_params : PyDict) : PyDict :=
  match query_params with
  | [] => []
  | (_, none) :: t => filter_query_params t
  | (k, some v) :: t => (k, some v) :: filter_query_params t

namespace ConnectionManager

/-- The request `raw_get` hands to `self._s.get`. -/
def raw_get_request (m : ConnectionManager) (path : String) (kwargs : PyDict) :
    SentRequest :=
  { method := "GET"
    url := urljoin m.base_url path
    params := kwargs
    data := none
    req_headers := m.headers
    timeout := m.timeout
    req_verify := some m.verify
    req_cert := some m.cert }

/-- Method `raw_get`. -/
def raw_get (m : ConnectionManager) (path : String) (kwargs : PyDict)
    (t : Transport) : Except KeycloakConnectionError Response :=
  sendRequest t (raw_get_request m path kwargs)

/-- The request `raw_post` hands to `self._s.post`. -/
def raw_post_request (m : ConnectionManager) (path : String) (data : Body)
    (kwargs : PyDict) : SentRequest :=
  { method := "POST"
    url := urljoin m.base_url path
    params := kwargs
    data := some data
    req_headers := m.headers
    timeout := m.timeout
    req_verify := some m.verify
    req_cert := some m.cert }

/-- Method `raw_post`. -/
def raw_post (m : ConnectionManager) (path : String) (data : Body)
    (kwargs : PyDict) (t : Transport) : Except KeycloakConnectionError Response :=
  sendRequest t (raw_post_request m path data kwargs)

/-- The request `raw_put` hands to `self._s.put`. -/
def raw_put_request (m : ConnectionManager) (path : String) (data : Body)
    (kwargs : PyDict) : SentRequest :=
  { method := "PUT"
    url := urljoin m.base_url path
    params := kwargs
    data := some data
    req_headers := m.headers
    timeout := m.timeout
    req_verify := some m.verify
    req_cert := some m.cert }

/-- Method `raw_put`. -/
def raw_put (m : ConnectionManager) (path : String) (data : Body)
    (kwargs : PyDict) (t : Transport) : Except KeycloakConnectionError Response :=
  sendRequest t (raw_put_request m path data kwargs)

/-- The request `raw_delete` hands to `self._s.delete`; a missing or
empty body is replaced by the empty dict (`data or {}`). -/
def raw_delete_request (m : ConnectionManager) (path : String)
    (data : Option Body) (kwargs : PyDict) : SentRequest :=
  { method := "DELETE"
    url := urljoin m.base_url path
    params := kwargs
    data := some (match data with | none => [] | some d => d)
    req_headers := m.headers
    timeout := m.timeout
    req_verify := some m.verify
    req_cert := some m.cert }

/-- Method `raw_delete`. -/
def raw_delete (m : ConnectionManager) (path : String) (data : Option Body)
    (kwargs : PyDict) (t : Transport) : Except KeycloakConnectionError Response :=
  sendRequest t (raw_delete_request m path data kwargs)

/-- The request `a_raw_get` hands to `self.async_s.get`: query params are
filtered, and no per-request verify or cert is passed. -/
def a_raw_get_request (m : ConnectionManager) (path : String) (kwargs : PyDict) :
    SentRequest :=
  { method := "GET"
    url := urljoin m.base_url path
    params := filter_query_params kwargs
    data := none
    req_headers := m.headers
    timeout := m.timeout
    req_verify := none
    req_cert := none }

/-- Method `a_raw_get`. -/
def a_raw_get (m : ConnectionManager) (path : String) (kwargs : PyDict)
    (t : Transport) : Except KeycloakConnectionError Response :=
  sendRequest t (a_raw_get_request m path kwargs)

/-- The request `a_raw_post` hands to `self.async_s.request` with method
POST. -/
def a_raw_post_request (m : ConnectionManager) (path : String) (data : Body)
    (kwargs : PyDict) : SentRequest :=
  { method := "POST"
    url := urljoin m.base_url path
    params := filter_query_params kwargs
    data := some data
    req_headers := m.headers
    timeout := m.timeout
    req_verify := none
    req_cert := none }

/-- Method `a_raw_post`. -/
def a_raw_post (m : ConnectionManager) (path : String) (data : Body)
    (kwargs : PyDict) (t : Transport) : Except KeycloakConnectionError Response :=
  sendRequest t (a_raw_post_request m path data kwargs)

/-- The request `a_raw_put` hands to `self.async_s.put`. -/
def a_raw_put_request (m : ConnectionManager) (path : String) (data : Body)
    (kwargs : PyDict) : SentRequest :=
  { method := "PUT"
    url := urljoin m.base_url path
    params := filter_query_params kwargs
    data := some data
    req_headers := m.headers
    timeout := m.timeout
    req_verify := none
    req_cert := none }

/-- Method `a_raw_put`. -/
def a_raw_put (m : ConnectionManager) (path : String) (data : Body)
    (kwargs : PyDict) (t : Transport) : Except KeycloakConnectionError Response :=
  sendRequest t (a_raw_put_request m path data kwargs)

/-- The request `a_raw_delete` hands to `self.async_s.request` with
method DELETE; a missing or empty body becomes the empty dict. -/
def a_raw_delete_request (m : ConnectionManager) (path : String)
    (data : Option Body) (kwargs : PyDict) : SentRequest :=
  { method := "DELETE"
    url := urljoin m.base_url path
    params := filter_query_params kwargs
    data := some (match data with | none => [] | some d => d)
    req_headers := m.headers
    timeout := m.timeout
    req_verify := none
    req_cert := none }

/-- Method `a_raw_delete`. -/
def a_raw_delete (m : ConnectionManager) (path : String) (data : Option Body)
    (kwargs : PyDict) (t : Transport) : Except KeycloakConnectionError Response :=
  sendRequest t (a_raw_delete_request m path data kwargs)

end ConnectionManager

/-- Modelled from the spec: the query string `requests` sends for a
parameter mapping (library code, not under src/): parameters with the
value `None` are not included, the rest are serialised in order. -/
def requestsQueryPairs (ps : PyDict) : List (String × String) :=
  match ps with
  | [] => []
  | (_, none) :: t => requestsQueryPairs t
  | (k, some v) :: t => (k, v) :: requestsQueryPairs t

/-- Modelled from the spec: the query string `httpx` sends for a
parameter mapping (library code, not under src/): parameters with the
value `None` are included as-is, serialised through their textual form. -/
def httpxQueryPairs (ps : PyDict) : List (String × String) :=
  match ps with
  | [] => []
  | (k, none) :: t => (k, "None") :: httpxQueryPairs t
  | (k, some v) :: t => (k, v) :: httpxQueryPairs t

/-- Serialise key-value pairs into a query string. -/
def encodeQuery (ps : List (String × String)) : String :=
  String.intercalate "&" (ps.map (fun p => p.1 ++ "=" ++ p.2))

/-! Helper lemmas about the dict embedding, the query-parameter filter and
the shared dispatch pattern. -/

theorem dictGet_dictSet_self (d : PyDict) (k : String) (v : Option String) :
    dictGet (dictSet d k v) k = some v := by
  induction d with
  | nil => simp [dictSet, dictGet]
  | cons p t ih =>
      by_cases h : p.1 = k
      · simp [dictSet, dictGet, h]
      · cases p
        simp_all [dictSet, dictGet, h]

theorem dictGet_dictPop_self (d : PyDict) (k : String) :
    dictGet (dictPop d k) k = none := by
  induction d with
  | nil => simp [dictPop, dictGet]
  | cons p t ih =>
      by_cases h : p.1 = k
      · cases p
        simp_all [dictPop]
      · cases p
        simp_all [dictPop, dictGet]

theorem filter_query_params_eq_filter (l : PyDict) :
    filter_query_params l = l.filter (fun p => p.2.isSome) := by
  induction l with
  | nil => rfl
  | cons p t ih =>
      cases p with
      | mk k v => cases v <;> simp [filter_query_params, ih]

theorem httpx_pairs_filter_eq_requests_pairs (l : PyDict) :
    httpxQueryPairs (filter_query_params l) = requestsQueryPairs l := by
  induction l with
  | nil => rfl
  | cons p t ih =>
      cases p with
      | mk k v =>
          cases v <;> simp [filter_query_params, httpxQueryPairs,
            requestsQueryPairs, ih]

theorem sendRequest_resp {t : Transport} {q : SentRequest} {r : Response}
    (h : t q = TransportResult.resp r) : sendRequest t q = Except.ok r := by
  simp [sendRequest, h]

theorem sendRequest_error_iff (t : Transport) (q : SentRequest) :
    (∃ err, sendRequest t q = Except.error err) ↔
      (∃ e, t q = TransportResult.exc e) := by
  cases h : t q with
  | resp r => simp [sendRequest, h]
  | exc e => simp [sendRequest, h]

theorem sendRequest_exc {t : Transport} {q : SentRequest} {e : PyExc}
    (h : t q = TransportResult.exc e) :
    sendRequest t q = Except.error { message := e.reprStr } := by
  simp [sendRequest, h]

open ConnectionManager

/-- Claim C3: for every header key k and value v, after
`add_param_headers(k, v)` the query `param_headers(k)` returns exactly v;
after `del_param_headers(k)` the check `exist_param_headers(k)` returns
false; after `clean_headers()` the headers mapping is empty. -/
theorem header_roundtrip_remove_clear (m : ConnectionManager) (k v : String) :
    param_headers (add_param_headers m k (some v)) k = some v
    ∧ exist_param_headers (del_param_headers m k) k = false
    ∧ (clean_headers m).headers = [] := by
  refine ⟨?_, ?_, rfl⟩
  · simp [param_headers, add_param_headers, dictGet_dictSet_self]
  · simp [exist_param_headers, param_headers, del_param_headers,
      dictGet_dictPop_self]

/-- Claim C6: after construction with any headers argument (including the
absent case) and after every full replacement through the headers setter,
the headers attribute is a mapping, never a null state: passing the
absent marker yields the empty mapping, and a given mapping is stored as
is. -/
theorem headers_never_null (base : String) (timeout : Nat) (vf : Verify)
    (px : Option Proxies) (c : Option Cert) (mr : Nat)
    (m : ConnectionManager) (h : PyDict) :
    (init base none timeout vf px c mr).headers = []
    ∧ (init base (some h) timeout vf px c mr).headers = h
    ∧ (setHeaders m none).headers = []
    ∧ (setHeaders m (some h)).headers = h :=
  ⟨rfl, rfl, rfl, rfl⟩

/-- Claim C9: `exist_param_headers(k)` returns true exactly when the
headers mapping binds k to a non-None value; after
`add_param_headers(k, None)` the key is bound in the mapping (to None)
yet the existence check returns false, because existence is decided by
comparing the looked-up value against None, not by key membership. -/
theorem exist_param_headers_iff_non_none (m : ConnectionManager) (k : String) :
    (exist_param_headers m k = true ↔
      ∃ s, dictGet m.headers k = some (some s))
    ∧ dictGet (add_param_headers m k none).headers k = some none
    ∧ exist_param_headers (add_param_headers m k none) k = false := by
  refine ⟨?_, ?_, ?_⟩
  · cases h : dictGet m.headers k with
    | none => simp [exist_param_headers, param_headers, h]
    | some v => cases v <;> simp [exist_param_headers, param_headers, h]
  · simp [add_param_headers, dictGet_dictSet_self]
  · simp [exist_param_headers, param_headers, add_param_headers,
      dictGet_dictSet_self]

/-- Claim C9 witness: evaluated at a concrete manager and key. -/
theorem exist_param_headers_iff_non_none_witness :
    dictGet (add_param_headers
      (init "http://localhost:8080/auth/" none 60 (Verify.flag true) none none 1)
      "Authorization" none).headers "Authorization" = some none
    ∧ exist_param_headers (add_param_headers
      (init "http://localhost:8080/auth/" none 60 (Verify.flag true) none none 1)
      "Authorization" none) "Authorization" = false :=
  ⟨(exist_param_headers_iff_non_none
      (init "http://localhost:8080/auth/" none 60 (Verify.flag true) none none 1)
      "Authorization").2.1,
   (exist_param_headers_iff_non_none
      (init "http://localhost:8080/auth/" none 60 (Verify.flag true) none none 1)
      "Authorization").2.2⟩

/-- Claim C10: each of `add_param_headers`, `del_param_headers` and
`clean_headers` modifies only the headers mapping: the base_url, timeout,
verify and cert attributes are unchanged, for every prior state. -/
theorem header_ops_frame (m : ConnectionManager) (k : String) (v : Option String) :
    ((add_param_headers m k v).base_url = m.base_url
      ∧ (add_param_headers m k v).timeout = m.timeout
      ∧ (add_param_headers m k v).verify = m.verify
      ∧ (add_param_headers m k v).cert = m.cert)
    ∧ ((del_param_headers m k).base_url = m.base_url
      ∧ (del_param_headers m k).timeout = m.timeout
      ∧ (del_param_headers m k).verify = m.verify
      ∧ (del_param_headers m k).cert = m.cert)
    ∧ ((clean_headers m).base_url = m.base_url
      ∧ (clean_headers m).timeout = m.timeout
      ∧ (clean_headers m).verify = m.verify
      ∧ (clean_headers m).cert = m.cert) :=
  ⟨⟨rfl, rfl, rfl, rfl⟩, ⟨rfl, rfl, rfl, rfl⟩, ⟨rfl, rfl, rfl, rfl⟩⟩

/-- Claim C7: construction mounts the same retry adapter on the
synchronous session for the https and http schemes; its retry count
equals the configured max retry count and its allowed-retry method set is
the library default set extended with POST. -/
theorem sync_retry_adapter_config (base : String) (hdrs : Option PyDict)
    (timeout : Nat) (vf : Verify) (px : Option Proxies) (c : Option Cert)
    (mr : Nat) :
    ∃ a : HTTPAdapter,
      List.lookup "https://" (init base hdrs timeout vf px c mr).sync_mounts
          = some a
      ∧ List.lookup "http://" (init base hdrs timeout vf px c mr).sync_mounts
          = some a
      ∧ a.max_retries.total = mr
      ∧ a.max_retries.allowed_methods = DEFAULT_ALLOWED_METHODS ++ ["POST"] :=
  ⟨buildAdapter mr, rfl, rfl, rfl, rfl⟩

/-- Claim C8: for every configured max retry count, the asynchronous
client is built with a transport whose retry count is the fixed value 1,
while the synchronous adapters carry the configured count; the
TLS-verification mode, proxy mounts and client certificate passed to the
constructor are bound into the asynchronous client at construction. -/
theorem async_transport_retry_fixed_one (base : String) (hdrs : Option PyDict)
    (timeout : Nat) (vf : Verify) (px : Option Proxies) (c : Option Cert)
    (mr : Nat) :
    (init base hdrs timeout vf px c mr).async_s.transport.retries = 1
    ∧ (init base hdrs timeout vf px c mr).async_s.verify = vf
    ∧ (init base hdrs timeout vf px c mr).async_s.mounts = px
    ∧ (init base hdrs timeout vf px c mr).async_s.cert = c
    ∧ List.lookup "https://" (init base hdrs timeout vf px c mr).sync_mounts
        = some (buildAdapter mr)
    ∧ List.lookup "http://" (init base hdrs timeout vf px c mr).sync_mounts
        = some (buildAdapter mr)
    ∧ (buildAdapter mr).max_retries.total = mr :=
  ⟨rfl, rfl, rfl, rfl, rfl, rfl, rfl⟩

/-- A concrete manager, used to instantiate witnesses. -/
def sampleManager : ConnectionManager :=
  init "http://localhost:8080/auth/" none 60 (Verify.flag true) none none 1

/-- A concrete query-parameter mapping holding a None-valued entry. -/
def sampleParams : PyDict := [("realm", some "demo"), ("max", none)]

/-- Claim C1: for each of the eight request operations, whenever the
underlying transport call raises any exception, the operation raises
exactly the connection-error kind and its message contains the string
representation of the original failure. -/
theorem transport_failure_raises_connection_error (m : ConnectionManager)
    (path : String) (data : Body) (odata : Option Body) (kwargs : PyDict)
    (t : Transport) (e : PyExc) :
    (t (raw_get_request m path kwargs) = TransportResult.exc e →
      ∃ err : KeycloakConnectionError, raw_get m path kwargs t = Except.error err
        ∧ ∃ a b : List Char, err.message.data = a ++ e.reprStr.data ++ b)
    ∧ (t (raw_post_request m path data kwargs) = TransportResult.exc e →
      ∃ err : KeycloakConnectionError, raw_post m path data kwargs t = Except.error err
        ∧ ∃ a b : List Char, err.message.data = a ++ e.reprStr.data ++ b)
    ∧ (t (raw_put_request m path data kwargs) = TransportResult.exc e →
      ∃ err : KeycloakConnectionError, raw_put m path data kwargs t = Except.error err
        ∧ ∃ a b : List Char, err.message.data = a ++ e.reprStr.data ++ b)
    ∧ (t (raw_delete_request m path odata kwargs) = TransportResult.exc e →
      ∃ err : KeycloakConnectionError, raw_delete m path odata kwargs t = Except.error err
        ∧ ∃ a b : List Char, err.message.data = a ++ e.reprStr.data ++ b)
    ∧ (t (a_raw_get_request m path kwargs) = TransportResult.exc e →
      ∃ err : KeycloakConnectionError, a_raw_get m path kwargs t = Except.error err
        ∧ ∃ a b : List Char, err.message.data = a ++ e.reprStr.data ++ b)
    ∧ (t (a_raw_post_request m path data kwargs) = TransportResult.exc e →
      ∃ err : KeycloakConnectionError, a_raw_post m path data kwargs t = Except.error err
        ∧ ∃ a b : List Char, err.message.data = a ++ e.reprStr.data ++ b)
    ∧ (t (a_raw_put_request m path data kwargs) = TransportResult.exc e →
      ∃ err : KeycloakConnectionError, a_raw_put m path data kwargs t = Except.error err
        ∧ ∃ a b : List Char, err.message.data = a ++ e.reprStr.data ++ b)
    ∧ (t (a_raw_delete_request m path odata kwargs) = TransportResult.exc e →
      ∃ err : KeycloakConnectionError, a_raw_delete m path odata kwargs t = Except.error err
        ∧ ∃ a b : List Char, err.message.data = a ++ e.reprStr.data ++ b) := by
  refine ⟨?_, ?_, ?_, ?_, ?_, ?_, ?_, ?_⟩ <;>
    exact fun h => ⟨{ message := e.reprStr }, sendRequest_exc h, [], [], by simp⟩

/-- Claim C1 witness: a forced transport failure on a concrete manager
yields the connection error carrying the failure's representation. -/
theorem transport_failure_raises_connection_error_witness :
    ∃ err : KeycloakConnectionError,
      raw_get sampleManager "realms/demo" []
          (fun _ => TransportResult.exc { reprStr := "ConnectionRefused" })
        = Except.error err
      ∧ ∃ a b : List Char,
          err.message.data = a ++ ("ConnectionRefused" : String).data ++ b :=
  (transport_failure_raises_connection_error sampleManager "realms/demo" [] none []
    (fun _ => TransportResult.exc { reprStr := "ConnectionRefused" })
    { reprStr := "ConnectionRefused" }).1 rfl

/-- Claim C5: for each request operation, whenever the transport returns
a response of any status code, the operation returns that response
unmodified; the operation raises exactly when the transport raised. -/
theorem response_returned_unmodified (m : ConnectionManager) (path : String)
    (data : Body) (odata : Option Body) (kwargs : PyDict) (t : Transport)
    (r : Response) :
    ((t (raw_get_request m path kwargs) = TransportResult.resp r →
        raw_get m path kwargs t = Except.ok r)
      ∧ ((∃ err, raw_get m path kwargs t = Except.error err) ↔
          (∃ e, t (raw_get_request m path kwargs) = TransportResult.exc e)))
    ∧ ((t (raw_post_request m path data kwargs) = TransportResult.resp r →
        raw_post m path data kwargs t = Except.ok r)
      ∧ ((∃ err, raw_post m path data kwargs t = Except.error err) ↔
          (∃ e, t (raw_post_request m path data kwargs) = TransportResult.exc e)))
    ∧ ((t (raw_put_request m path data kwargs) = TransportResult.resp r →
        raw_put m path data kwargs t = Except.ok r)
      ∧ ((∃ err, raw_put m path data kwargs t = Except.error err) ↔
          (∃ e, t (raw_put_request m path data kwargs) = TransportResult.exc e)))
    ∧ ((t (raw_delete_request m path odata kwargs) = TransportResult.resp r →
        raw_delete m path odata kwargs t = Except.ok r)
      ∧ ((∃ err, raw_delete m path odata kwargs t = Except.error err) ↔
          (∃ e, t (raw_delete_request m path odata kwargs) = TransportResult.exc e)))
    ∧ ((t (a_raw_get_request m path kwargs) = TransportResult.resp r →
        a_raw_get m path kwargs t = Except.ok r)
      ∧ ((∃ err, a_raw_get m path kwargs t = Except.error err) ↔
          (∃ e, t (a_raw_get_request m path kwargs) = TransportResult.exc e)))
    ∧ ((t (a_raw_post_request m path data kwargs) = TransportResult.resp r →
        a_raw_post m path data kwargs t = Except.ok r)
      ∧ ((∃ err, a_raw_post m path data kwargs t = Except.error err) ↔
          (∃ e, t (a_raw_post_request m path data kwargs) = TransportResult.exc e)))
    ∧ ((t (a_raw_put_request m path data kwargs) = TransportResult.resp r →
        a_raw_put m path data kwargs t = Except.ok r)
      ∧ ((∃ err, a_raw_put m path data kwargs t = Except.error err) ↔
          (∃ e, t (a_raw_put_request m path data kwargs) = TransportResult.exc e)))
    ∧ ((t (a_raw_delete_request m path odata kwargs) = TransportResult.resp r →
        a_raw_delete m path odata kwargs t = Except.ok r)
      ∧ ((∃ err, a_raw_delete m path odata kwargs t = Except.error err) ↔
          (∃ e, t (a_raw_delete_request m path odata kwargs) = TransportResult.exc e))) := by
  refine ⟨?_, ?_, ?_, ?_, ?_, ?_, ?_, ?_⟩ <;>
    exact ⟨fun h => sendRequest_resp h, sendRequest_error_iff _ _⟩

/-- Claim C5 witness: a concrete 404 response comes back unmodified as a
normal return. -/
theorem response_returned_unmodified_witness :
    raw_get sampleManager "realms/demo" []
        (fun _ => TransportResult.resp
          { status_code := 404, resp_headers := [], body := "not found" })
      = Except.ok { status_code := 404, resp_headers := [], body := "not found" } :=
  ((response_returned_unmodified sampleManager "realms/demo" [] none []
    (fun _ => TransportResult.resp
      { status_code := 404, resp_headers := [], body := "not found" })
    { status_code := 404, resp_headers := [], body := "not found" }).1).1 rfl

/-- Claim C2: for every query-parameter mapping holding a None-valued
entry, each of the four asynchronous operations sends the mapping with
exactly the None-valued entries removed and the rest unchanged, and the
query string sent on the asynchronous path equals the one the synchronous
path sends for the same mapping. -/
theorem async_query_filter_matches_sync (m : ConnectionManager) (path : String)
    (data : Body) (odata : Option Body) (kwargs : PyDict)
    (_hn : ∃ p ∈ kwargs, p.2 = none) :
    filter_query_params kwargs = kwargs.filter (fun p => p.2.isSome)
    ∧ (a_raw_get_request m path kwargs).params = filter_query_params kwargs
    ∧ (a_raw_post_request m path data kwargs).params = filter_query_params kwargs
    ∧ (a_raw_put_request m path data kwargs).params = filter_query_params kwargs
    ∧ (a_raw_delete_request m path odata kwargs).params = filter_query_params kwargs
    ∧ encodeQuery (httpxQueryPairs (a_raw_get_request m path kwargs).params)
        = encodeQuery (requestsQueryPairs (raw_get_request m path kwargs).params)
    ∧ encodeQuery (httpxQueryPairs (a_raw_post_request m path data kwargs).params)
        = encodeQuery (requestsQueryPairs (raw_post_request m path data kwargs).params)
    ∧ encodeQuery (httpxQueryPairs (a_raw_put_request m path data kwargs).params)
        = encodeQuery (requestsQueryPairs (raw_put_request m path data kwargs).params)
    ∧ encodeQuery (httpxQueryPairs (a_raw_delete_request m path odata kwargs).params)
        = encodeQuery (requestsQueryPairs (raw_delete_request m path odata kwargs).params) := by
  refine ⟨filter_query_params_eq_filter kwargs, rfl, rfl, rfl, rfl, ?_, ?_, ?_, ?_⟩ <;>
    exact congrArg encodeQuery (httpx_pairs_filter_eq_requests_pairs kwargs)

/-- Claim C2 witness: a concrete mapping with a None-valued entry, its
filtering evaluated, and the query strings of both paths evaluated. -/
theorem async_query_filter_matches_sync_witness :
    (∃ p ∈ sampleParams, p.2 = none)
    ∧ filter_query_params sampleParams
        = sampleParams.filter (fun p => p.2.isSome)
    ∧ filter_query_params sampleParams = [("realm", some "demo")]
    ∧ encodeQuery (httpxQueryPairs
        (a_raw_get_request sampleManager "users" sampleParams).params)
        = "realm=demo" :=
  ⟨by decide,
   (async_query_filter_matches_sync sampleManager "users" [] none sampleParams
      (by decide)).1,
   by decide,
   by decide⟩

/-- Claim C4: each of the eight request operations sends its request to
the URL-join of the base URL and the path; an absolute path (leading
slash) replaces the base URL's path, a relative path is appended to the
directory portion of the base URL's path. -/
theorem request_url_is_urljoin (m : ConnectionManager) (path : String)
    (data : Body) (odata : Option Body) (kwargs : PyDict) (base : String) :
    (raw_get_request m path kwargs).url = urljoin m.base_url path
    ∧ (raw_post_request m path data kwargs).url = urljoin m.base_url path
    ∧ (raw_put_request m path data kwargs).url = urljoin m.base_url path
    ∧ (raw_delete_request m path odata kwargs).url = urljoin m.base_url path
    ∧ (a_raw_get_request m path kwargs).url = urljoin m.base_url path
    ∧ (a_raw_post_request m path data kwargs).url = urljoin m.base_url path
    ∧ (a_raw_put_request m path data kwargs).url = urljoin m.base_url path
    ∧ (a_raw_delete_request m path odata kwargs).url = urljoin m.base_url path
    ∧ (startsWithSlash path = true →
        urljoin base path = (splitUrl base).1 ++ path)
    ∧ (path ≠ "" → startsWithSlash path = false →
        urljoin base path
          = (splitUrl base).1 ++ dirOf (splitUrl base).2 ++ path) := by
  refine ⟨rfl, rfl, rfl, rfl, rfl, rfl, rfl, rfl, ?_, ?_⟩
  · intro h
    have hne : path ≠ "" := by
      intro he
      rw [he] at h
      exact absurd h (by decide)
    simp [urljoin, hne, h]
  · intro hne h
    simp [urljoin, hne, h]

/-- Claim C4 witness: URL resolution evaluated on a concrete base URL
with a concrete absolute path and a concrete relative path. -/
theorem request_url_is_urljoin_witness :
    (startsWithSlash "/x" = true)
    ∧ urljoin "http://host/a/b" "/x" = (splitUrl "http://host/a/b").1 ++ "/x"
    ∧ ("c" ≠ "" ∧ startsWithSlash "c" = false)
    ∧ urljoin "http://host/a/b" "c"
        = (splitUrl "http://host/a/b").1 ++ dirOf (splitUrl "http://host/a/b").2 ++ "c"
    ∧ urljoin "http://host/a/b" "/x" = "http://host/x"
    ∧ urljoin "http://host/a/b" "c" = "http://host/a/c"
    ∧ (raw_get_request sampleManager "c" []).url = urljoin sampleManager.base_url "c" :=
  ⟨by decide,
   (request_url_is_urljoin sampleManager "/x" [] none [] "http://host/a/b").2.2.2.2.2.2.2.2.1
     (by decide),
   ⟨by decide, by decide⟩,
   (request_url_is_urljoin sampleManager "c" [] none [] "http://host/a/b").2.2.2.2.2.2.2.2.2
     (by decide) (by decide),
   by decide,
   by decide,
   (request_url_is_urljoin sampleManager "c" [] none [] "http://host/a/b").1⟩

end Keycloak
